import Mathlib

/-!
Shallow embedding of the AiMusicVideoGenerator server pipeline.

The repository carries two server implementations of the same pipeline:
`src/index.js` (synchronous route, Freesound two-tier audio search, a
three-tier `searchAndDownloadMusic` helper, output-file verification in
`createVideo`) and `src/unnamed/part_000` (global `generationProgress`
object, AudioCraft music generation, no output-file verification).
Definitions below are labelled `...Idx` for `src/index.js` and `...P0`
for `src/unnamed/part_000`.

External effects are abstracted by oracles: an image-service oracle maps
a frame index to its response, an audio-search oracle maps a query string
to whether the service returned a non-empty result list, the encoder is a
terminal outcome plus a list of progress events, and `fs.stat` is an
`Option Nat` (`none` for a missing file, `some n` for a file of `n`
bytes). Durations are modelled as JavaScript numbers restricted to
integers-or-NaN, which covers all behaviours the claims exercise.
-/

deriving instance DecidableEq for Except

namespace AiMusic

/-- A JavaScript word character, the complement of the regex class W:
letters, digits and underscore. -/
def isWordChar (c : Char) : Bool := c.isAlphanum || c == '_'

/-- The separator class of the inline keyword split in
`getAudioFromFreesound`: whitespace and the punctuation in the regex
class [ s . , ! ? ]. -/
def isSepChar (c : Char) : Bool :=
  c.isWhitespace || c == '.' || c == ',' || c == '!' || c == '?'

/-- Worker for `jsSplit`: walks the character list keeping the current
token (`acc`, reversed) and whether the scanner stands inside a run of
separators (`inSep`); the first separator of a run ends the token, the
rest of the run is skipped, matching a JavaScript split on a one-or-more
separator regex (which yields empty tokens only at the string edges). -/
def jsSplitAux (sep : Char → Bool) : List Char → List Char → Bool → List String
  | [], acc, inSep => if inSep then [""] else [String.mk acc.reverse]
  | c :: cs, acc, inSep =>
    if sep c then
      if inSep then jsSplitAux sep cs [] true
      else String.mk acc.reverse :: jsSplitAux sep cs [] true
    else
      jsSplitAux sep cs (c :: acc) false

/-- JavaScript `str.split(regex)` for a regex matching one-or-more
characters of the class decided by `sep`. -/
def jsSplit (sep : Char → Bool) (s : String) : List String :=
  jsSplitAux sep s.data [] false

/-- JavaScript `str.toLowerCase()` (over the ASCII range the pipeline
uses), computed characterwise so that it evaluates by kernel reduction. -/
def jsToLower (s : String) : String := String.mk (s.data.map Char.toLower)

/-- JavaScript `str.trim()`: strip whitespace from both ends. -/
def jsTrim (s : String) : String :=
  String.mk ((s.data.dropWhile Char.isWhitespace).reverse.dropWhile
    Char.isWhitespace).reverse

/-- The stopword list of `extractKeywords` in both server files. -/
def commonWords : List String :=
  ["a", "an", "the", "and", "or", "but", "in", "on", "at", "to", "for", "with", "by"]

/-- `extractKeywords` from `src/index.js` lines 97-105 (identical in
`src/unnamed/part_000`): lower-case, split on runs of non-word
characters, keep words of length greater than 2 that are not stopwords. -/
def extractKeywords (prompt : String) : List String :=
  let words := jsSplit (fun c => !isWordChar c) (jsToLower prompt)
  words.filter (fun word => decide (2 < word.length) && !(commonWords.contains word))

/-- The stopword list of the inline extraction in `getAudioFromFreesound`
(`src/index.js` line 371). -/
def gaffStop : List String := ["with", "and", "the", "for"]

/-- The inline keyword extraction of `getAudioFromFreesound`
(`src/index.js` lines 368-371): lower-case, split on whitespace and
punctuation, keep words of length greater than 3 not in `gaffStop`. -/
def gaffKeywords (prompt : String) : List String :=
  ((jsSplit isSepChar (jsToLower prompt)).filter
      (fun word => decide (3 < word.length))).filter
    (fun word => !(gaffStop.contains word))

/-- `DEFAULT_CATEGORIES` from `src/index.js` lines 59-65. -/
def DEFAULT_CATEGORIES : List String :=
  ["ambient music", "background music", "soundtrack", "atmospheric music", "instrumental"]

/-- `defaultSounds` from `src/index.js` lines 108-114 (declared in the
source but not referenced by the pipeline). -/
def defaultSounds : List String :=
  ["ambient", "background music", "melody", "atmospheric", "soundtrack"]

/-- Response of one Stability text-to-image call, as the code can
distinguish it: a payload with a base64 artifact, a 200 response without
one ("malformed"), or a transport/API error that makes axios throw. -/
inductive FrameResp where
  | ok (b64 : String)
  | malformed
  | svcError (msg : String)
deriving DecidableEq, Repr

/-- Does the response carry a base64 artifact? -/
def isOkResp : FrameResp → Bool
  | FrameResp.ok _ => true
  | _ => false

/-- Does the response make axios throw? -/
def isSvcError : FrameResp → Bool
  | FrameResp.svcError _ => true
  | _ => false

/-- Frame file path written by `generateVideoFrames` in `src/index.js`
line 252. -/
def framePathIdx (i : ℕ) : String := "frame_" ++ toString i ++ ".png"

/-- Loop body of `generateVideoFrames` in `src/index.js` lines 225-260:
a service error propagates out of the try and aborts; a response with an
artifact appends a frame; a malformed response is skipped silently. -/
def genFramesIdxAux (oracle : ℕ → FrameResp) :
    List ℕ → List String → Except String (List String)
  | [], frames =>
    if frames.isEmpty then Except.error "Failed to generate any frames"
    else Except.ok frames
  | i :: is, frames =>
    match oracle i with
    | FrameResp.ok _ => genFramesIdxAux oracle is (frames ++ [framePathIdx i])
    | FrameResp.malformed => genFramesIdxAux oracle is frames
    | FrameResp.svcError m => Except.error m

/-- `generateVideoFrames` from `src/index.js` lines 214-271: iterates
`minFrames = Math.max(4, numFrames)` times and errors only when no frame
at all was produced. -/
def genFramesIdx (oracle : ℕ → FrameResp) (numFrames : Int) :
    Except String (List String) :=
  genFramesIdxAux oracle (List.range (max 4 numFrames).toNat) []

/-- Frame file path written by `generateVideoFrames` in
`src/unnamed/part_000` line 189; `Date.now()` is the `now` parameter. -/
def framePathP0 (now i : ℕ) : String :=
  "frame_" ++ toString now ++ "_" ++ toString i ++ ".png"

/-- Error message built in `src/unnamed/part_000` line 199. -/
def p0FrameErrMsg (i : ℕ) (m : String) : String :=
  "Failed to generate frame " ++ toString i ++ ": " ++ m

/-- Loop body of `generateVideoFrames` in `src/unnamed/part_000` lines
162-201; the per-frame oracle returns `none` on success and the failure
message otherwise (a missing artifact throws at line 186, transport
errors throw in axios; both are wrapped by the catch at line 197). -/
def genFramesP0Aux (oracle : ℕ → Option String) (now : ℕ) :
    List ℕ → List String → Except (ℕ × String) (List String)
  | [], acc => Except.ok acc
  | i :: is, acc =>
    match oracle i with
    | some m => Except.error (i, p0FrameErrMsg i m)
    | none => genFramesP0Aux oracle now is (acc ++ [framePathP0 now i])

/-- `generateVideoFrames` from `src/unnamed/part_000` lines 153-209:
iterates indices 1..numFrames and aborts at the first failing frame. -/
def genFramesP0 (oracle : ℕ → Option String) (now : ℕ) (numFrames : ℕ) :
    Except (ℕ × String) (List String) :=
  genFramesP0Aux oracle now (List.range' 1 numFrames) []

/-- First failing frame index (1-based) and its cause for the part_000
frame loop, if any. -/
def p0FirstBad (oracle : ℕ → Option String) (n : ℕ) : Option (ℕ × String) :=
  (List.range' 1 n).findSome? (fun i => (oracle i).map (fun m => (i, m)))

/-- One fallback loop of `searchAndDownloadMusic`: issue the queries in
order, stop at the first one whose result list is non-empty; returns the
queries actually issued and the winning query. -/
def firstHit (oracle : String → Bool) : List String → List String × Option String
  | [] => ([], none)
  | q :: qs =>
    if oracle q then ([q], some q)
    else
      let r := firstHit oracle qs
      (q :: r.1, r.2)

/-- The tier-2 queries of `searchAndDownloadMusic` (`src/index.js` line
141): one query per extracted keyword. -/
def keywordQueries (prompt : String) : List String :=
  (extractKeywords prompt).map (fun k => k ++ " music background")

/-- `searchAndDownloadMusic` from `src/index.js` lines 117-211, reduced
to its search cascade: tier 1 queries the raw prompt, tier 2 the keyword
queries, tier 3 `DEFAULT_CATEGORIES`; if all are empty the function
throws. Result: the queries issued in order, and either the winning
query or the thrown error. -/
def searchAndDownloadMusic (oracle : String → Bool) (prompt : String) :
    List String × Except String String :=
  if oracle prompt then ([prompt], Except.ok prompt)
  else
    match (firstHit oracle (keywordQueries prompt)).2 with
    | some q =>
      (prompt :: (firstHit oracle (keywordQueries prompt)).1, Except.ok q)
    | none =>
      match (firstHit oracle DEFAULT_CATEGORIES).2 with
      | some q =>
        (prompt :: ((firstHit oracle (keywordQueries prompt)).1
          ++ (firstHit oracle DEFAULT_CATEGORIES).1), Except.ok q)
      | none =>
        (prompt :: ((firstHit oracle (keywordQueries prompt)).1
          ++ (firstHit oracle DEFAULT_CATEGORIES).1),
         Except.error "No matching sounds found after all attempts")

/-- The keyword-tier queries of `getAudioFromFreesound` (`src/index.js`
line 379). -/
def gaffQueries (prompt : String) : List String :=
  (gaffKeywords prompt).map (fun k => k ++ " music background")

/-- Temp audio path written by `getAudioFromFreesound`
(`src/index.js` line 398). -/
def audioPathIdx (now : ℕ) : String := "audio_" ++ toString now ++ ".mp3"

/-- `getAudioFromFreesound` from `src/index.js` lines 365-439: keyword
queries first, then `DEFAULT_CATEGORIES`; any exhaustion or error is
caught and turned into `null` (modelled as `none`). -/
def getAudioFromFreesound (oracle : String → Bool) (now : ℕ) (prompt : String) :
    Option String :=
  match (gaffQueries prompt).find? oracle with
  | some _ => some (audioPathIdx now)
  | none =>
    match DEFAULT_CATEGORIES.find? oracle with
    | some _ => some (audioPathIdx now)
    | none => none

/-- Per-frame input duration set by `createVideo` in `src/index.js` line
286: the `-t` option is `Math.ceil(duration / frames.length)`. -/
def frameSliceSeconds (duration frameCount : ℕ) : ℕ :=
  (duration + frameCount - 1) / frameCount

/-- The list of `-t` values `createVideo` passes to the encoder, one per
frame (`src/index.js` lines 281-288). -/
def frameInputDurations (frames : List String) (duration : ℕ) : List ℕ :=
  frames.map (fun _ => frameSliceSeconds duration frames.length)

/-- Output path of `createVideo` in `src/index.js` line 275. -/
def outputPathIdx (now : ℕ) : String := toString now ++ ".mp4"

/-- Output path of `createVideo` in `src/unnamed/part_000` line 215. -/
def outputPathP0 (now : ℕ) : String := "video_" ++ toString now ++ ".mp4"

/-- The `end` handler of `createVideo` in `src/index.js` lines 322-335:
`fs.stat` the output (`none` models a stat failure, that is a missing
file), resolve only when the size is positive. -/
def createVideoEndIdx (now : ℕ) (statSize : Option ℕ) : Except String String :=
  match statSize with
  | none => Except.error "Failed to verify video file"
  | some sz =>
    if 0 < sz then Except.ok (outputPathIdx now)
    else Except.error "Video file is empty"

/-- The `end` handler of `createVideo` in `src/unnamed/part_000` lines
255-258: resolves the output path unconditionally, the output file is
never inspected. -/
def createVideoEndP0 (now : ℕ) (_statSize : Option ℕ) : Except String String :=
  Except.ok (outputPathP0 now)

/-- `createVideo` outcome for `src/index.js`: an encoder error rejects
(lines 336-339), otherwise the `end` handler verifies the file. -/
def createVideoIdx (now : ℕ) (enc : Except String Unit) (statSize : Option ℕ) :
    Except String String :=
  match enc with
  | Except.error e => Except.error e
  | Except.ok _ => createVideoEndIdx now statSize

/-- The result of `Number(duration)` on the request body: either NaN or
a number (restricted to integers, which covers every claim). -/
inductive JsNum where
  | nan
  | fin (x : Int)
deriving DecidableEq, Repr

/-- `Math.ceil(durationNum / 2)` for an integer duration: floor division
of `d + 1` by 2 (Lean `Int` division is floor division). -/
def jsCeilHalf (d : Int) : Int := (d + 1) / 2

/-- The numeric value of a non-NaN `JsNum` (NaN never reaches the
pipeline, validation rejects it first; it is mapped to 0 for totality). -/
def jsNumVal : JsNum → Int
  | JsNum.nan => 0
  | JsNum.fin x => x

/-- A persisted `Video` document (`src/index.js` lines 45-51). -/
structure VideoRecord where
  prompt : String
  videoUrl : String
  duration : Int
  hasAudio : Bool
deriving DecidableEq, Repr

/-- Observable outcome of one `POST /api/generate-video` request to the
`src/index.js` server: HTTP status, body, whether each stage was
reached, and the record saved to MongoDB (if any). -/
structure RouteOut where
  status : ℕ
  response : Except String String
  framesStage : Bool
  framesCount : Option ℕ
  assembled : Bool
  saved : Option VideoRecord
deriving DecidableEq, Repr

/-- The `POST /api/generate-video` handler of `src/index.js` lines
442-503: validate, generate frames, get audio (null aborts), create the
video, re-stat the output, save the record with `hasAudio: true`. -/
def routeIdx (fOracle : ℕ → FrameResp) (aOracle : String → Bool)
    (enc : Except String Unit) (statSize : Option ℕ) (now : ℕ)
    (prompt : String) (durRaw : JsNum) : RouteOut :=
  if jsTrim prompt = "" ∨ durRaw = JsNum.nan then
    ⟨400, Except.error "Invalid prompt or duration", false, none, false, none⟩
  else
    match genFramesIdx fOracle (jsCeilHalf (jsNumVal durRaw)) with
    | Except.error e => ⟨500, Except.error e, true, none, false, none⟩
    | Except.ok frames =>
      if frames.isEmpty then
        ⟨500, Except.error "Failed to generate frames", true, some 0, false, none⟩
      else
        match getAudioFromFreesound aOracle now prompt with
        | none =>
          ⟨500, Except.error "Failed to get audio", true, some frames.length,
           false, none⟩
        | some _apath =>
          match createVideoIdx now enc statSize with
          | Except.error e =>
            ⟨500, Except.error e, true, some frames.length, true, none⟩
          | Except.ok vpath =>
            if statSize = some 0 then
              ⟨500, Except.error "Generated video file is empty", true,
               some frames.length, true, none⟩
            else
              ⟨200, Except.ok ("/videos/" ++ vpath), true, some frames.length, true,
               some ⟨prompt, "/videos/" ++ vpath, jsNumVal durRaw, true⟩⟩

/-- One snapshot of the global `generationProgress` object of
`src/unnamed/part_000` lines 146-151. -/
structure PState where
  progress : Int
  status : String
  videoUrl : Option String
  error : Option String
deriving DecidableEq, Repr

/-- `Math.round((i / numFrames) * 40)` from `src/unnamed/part_000` line
195, as floor of `40*i/n + 1/2`. -/
def frameProg (n i : ℕ) : Int := (((80 * i + n) / (2 * n) : ℕ) : Int)

/-- `75 + Math.round(progress.percent * 0.2)` from `src/unnamed/part_000`
line 253, for an integer encoder percentage. -/
def encProg (p : ℕ) : Int := 75 + (((2 * p + 5) / 10 : ℕ) : Int)

/-- Progress snapshot after frame `i` of `n` is generated
(`src/unnamed/part_000` lines 194-195). -/
def p0FrameState (n i : ℕ) : PState :=
  ⟨frameProg n i, "Generated frame " ++ toString i ++ "/" ++ toString n, none, none⟩

/-- Snapshots of the first `k` frame updates of an `n`-frame run. -/
def p0FramesStates (n k : ℕ) : List PState :=
  (List.range' 1 k).map (p0FrameState n)

/-- Progress snapshot for one encoder progress event
(`src/unnamed/part_000` lines 251-254). -/
def p0EncState (p : ℕ) : PState :=
  ⟨encProg p, "Encoding video: " ++ toString p ++ "%", none, none⟩

/-- Progress snapshot written by the route's catch block
(`src/unnamed/part_000` lines 360-365). -/
def p0FailState (m : String) : PState := ⟨-1, "Error occurred", none, some m⟩

/-- The reset state (`src/unnamed/part_000` lines 308-313). -/
def p0Start : PState := ⟨0, "Starting generation...", none, none⟩

/-- Status update entering the frame stage (line 318). -/
def p0GenFrames : PState := ⟨0, "Generating frames...", none, none⟩

/-- Status and percent entering the music stage (lines 322-323). -/
def p0Music : PState := ⟨45, "Generating music...", none, none⟩

/-- Status and percent entering assembly (lines 327-328). -/
def p0Assembling : PState := ⟨75, "Creating final video...", none, none⟩

/-- Status and percent entering persistence (lines 332-333). -/
def p0Finalizing : PState := ⟨90, "Finalizing...", none, none⟩

/-- The terminal success object (lines 352-357). -/
def p0Done (url : String) : PState := ⟨100, "Complete!", some url, none⟩

/-- The state written into the shared slot by the catch block when
validation throws (before any reset): only the error, status and
percent fields of the pre-existing state are overwritten. -/
def p0InvalidState (prev : PState) : PState :=
  { prev with
      progress := -1
      status := "Error occurred"
      error := some "Invalid prompt or duration" }

/-- Snapshots from the reset through the first `k` frame updates. -/
def p0PreFrames (n k : ℕ) : List PState :=
  [p0Start, p0GenFrames] ++ p0FramesStates n k

/-- The intermediate state written by the catch block of
`generateVideoFrames` (line 206): only the error field of the current
state changes. -/
def p0MidState (n : ℕ) (im : ℕ × String) : PState :=
  { (p0PreFrames n (im.1 - 1)).getLastD p0Start with
      error := some (p0FrameErrMsg im.1 im.2) }

/-- Snapshots from the reset through entering the music stage. -/
def p0T1 (n : ℕ) : List PState := p0PreFrames n n ++ [p0Music]

/-- Snapshots from the reset through the encoder progress events. -/
def p0T2 (n : ℕ) (evts : List ℕ) : List PState :=
  p0T1 n ++ [p0Assembling] ++ evts.map p0EncState

/-- Frame count requested by the part_000 route for a validated
duration: `Math.ceil(durationNum / 2)` loop iterations. -/
def p0N (durRaw : JsNum) : ℕ := (jsCeilHalf (jsNumVal durRaw)).toNat

/-- Observable outcome of one `POST /api/generate-video` request to the
`src/unnamed/part_000` server, together with the sequence of
`generationProgress` states the run wrote. -/
structure P0Out where
  trace : List PState
  response : Except String String
  framesStage : Bool
  framesCount : Option ℕ
  saved : Option VideoRecord
deriving DecidableEq, Repr

/-- The `POST /api/generate-video` handler of `src/unnamed/part_000`
lines 298-367. `prev` is the pre-existing content of the global progress
slot (the validation throw at line 304 happens before the reset, so its
catch mutates that pre-existing state). The frame stage is driven by the
per-frame oracle, music and the encoder by their outcome parameters, and
`evts` lists the encoder progress percentages. -/
def routeP0 (prev : PState) (now : ℕ) (fOracle : ℕ → Option String)
    (music : Except String String) (evts : List ℕ) (enc : Except String Unit)
    (prompt : String) (durRaw : JsNum) : P0Out :=
  if jsTrim prompt = "" ∨ durRaw = JsNum.nan then
    ⟨[p0InvalidState prev], Except.error "Invalid prompt or duration",
     false, none, none⟩
  else
    match p0FirstBad fOracle (p0N durRaw) with
    | some im =>
      ⟨p0PreFrames (p0N durRaw) (im.1 - 1)
         ++ [p0MidState (p0N durRaw) im, p0FailState (p0FrameErrMsg im.1 im.2)],
       Except.error (p0FrameErrMsg im.1 im.2), true, none, none⟩
    | none =>
      match music with
      | Except.error m =>
        ⟨p0T1 (p0N durRaw) ++ [p0FailState m], Except.error m, true,
         some (p0N durRaw), none⟩
      | Except.ok _apath =>
        match enc with
        | Except.error m =>
          ⟨p0T2 (p0N durRaw) evts ++ [p0FailState ("Failed to create video: " ++ m)],
           Except.error ("Failed to create video: " ++ m), true,
           some (p0N durRaw), none⟩
        | Except.ok _ =>
          ⟨p0T2 (p0N durRaw) evts
             ++ [p0Finalizing, p0Done ("/videos/" ++ outputPathP0 now)],
           Except.ok ("/videos/" ++ outputPathP0 now), true, some (p0N durRaw),
           some ⟨prompt, "/videos/" ++ outputPathP0 now, jsNumVal durRaw, true⟩⟩

/-- The monotonicity relation the claim asserts between consecutive
progress snapshots: the percent does not decrease unless the target
state is terminal (percent -1 or 100). -/
def claimStep (a b : PState) : Prop :=
  a.progress ≤ b.progress ∨ b.progress = -1 ∨ b.progress = 100

instance (a b : PState) : Decidable (claimStep a b) :=
  inferInstanceAs (Decidable (a.progress ≤ b.progress ∨ b.progress = -1 ∨ b.progress = 100))

/-- The amended relation: as `claimStep`, but the drop to 90 on entering
the Finalizing step is also allowed. -/
def stepOK (a b : PState) : Prop := claimStep a b ∨ b.progress = 90

instance (a b : PState) : Decidable (stepOK a b) :=
  inferInstanceAs (Decidable (claimStep a b ∨ b.progress = 90))

/-- An image-service oracle for `src/index.js` that always returns an
artifact. -/
def oAllOkIdx : ℕ → FrameResp := fun _ => FrameResp.ok "img"

/-- A part_000 frame oracle where every frame succeeds. -/
def oAllOkP0 : ℕ → Option String := fun _ => none

/-- An `src/index.js` image-service oracle whose third call (index 2)
returns a 200 response without an artifact. -/
def oMalformedAt2 : ℕ → FrameResp :=
  fun i => if i = 2 then FrameResp.malformed else FrameResp.ok "img"

/-- An audio-search oracle with no results for any query. -/
def oNoAudio : String → Bool := fun _ => false

/-- An audio-search oracle with results for every query. -/
def oAllAudio : String → Bool := fun _ => true

/-- An audio-search oracle that only matches one direct prompt. -/
def oDirectHit : String → Bool := fun q => q == "calm lake at sunrise"

/-- An arbitrary pre-existing progress slot content. -/
def prevIdle : PState := ⟨0, "", none, none⟩

/-! ## Helper lemmas -/

lemma firstHit_none_iff (oracle : String → Bool) :
    ∀ l : List String, (firstHit oracle l).2 = none ↔ ∀ q ∈ l, oracle q = false := by
  intro l
  induction l with
  | nil => simp [firstHit]
  | cons q qs ih =>
    by_cases h : oracle q = true
    · simp [firstHit, h]
    · rw [Bool.not_eq_true] at h
      simp [firstHit, h, ih]

lemma firstHit_none_fst (oracle : String → Bool) :
    ∀ l : List String, (firstHit oracle l).2 = none → (firstHit oracle l).1 = l := by
  intro l
  induction l with
  | nil => simp [firstHit]
  | cons q qs ih =>
    by_cases h : oracle q = true
    · simp [firstHit, h]
    · rw [Bool.not_eq_true] at h
      simp only [firstHit, h, Bool.false_eq_true, if_false]
      intro h2
      simp [ih h2]

lemma gaff_none {aO : String → Bool} (h : ∀ q, aO q = false) (now : ℕ)
    (p : String) : getAudioFromFreesound aO now p = none := by
  have h1 : (gaffQueries p).find? aO = none :=
    List.find?_eq_none.mpr (fun x _ => by simp [h x])
  have h2 : DEFAULT_CATEGORIES.find? aO = none :=
    List.find?_eq_none.mpr (fun x _ => by simp [h x])
  unfold getAudioFromFreesound
  rw [h1, h2]

lemma extractKeywords_sublist (p : String) :
    (extractKeywords p).Sublist (jsSplit (fun c => !isWordChar c) (jsToLower p)) := by
  unfold extractKeywords
  exact List.filter_sublist _

lemma extractKeywords_mem {p w : String} (h : w ∈ extractKeywords p) :
    2 < w.length ∧ w ∉ commonWords := by
  unfold extractKeywords at h
  simp only [List.mem_filter, Bool.and_eq_true, decide_eq_true_eq,
    Bool.not_eq_true'] at h
  obtain ⟨-, hlen, hstop⟩ := h
  refine ⟨hlen, ?_⟩
  simpa using hstop

/-! ## C4: the keyword extractor -/

/-- C4 (counterexample): on the spec's own example the claimed output is
wrong. `extractKeywords` keeps tokens of length greater than 2, so "cat"
(length 3) is returned, contradicting the claim that "cat" is excluded
and that the result is exactly `["quick","brown","fox","jumps"]`. -/
theorem c4_counterexample :
    extractKeywords "A cat and the quick brown fox jumps"
        ≠ ["quick", "brown", "fox", "jumps"]
    ∧ "cat" ∈ extractKeywords "A cat and the quick brown fox jumps" := by
  decide

/-- C4 (amended): `extractKeywords` lower-cases, splits on runs of
non-word characters and keeps, in first-occurrence order, the tokens of
length greater than 2 (not 3) that are outside its 13-entry stopword
list, so the example yields `["cat","quick","brown","fox","jumps"]`;
the separate inline extractor of `getAudioFromFreesound` splits on
whitespace and punctuation and keeps tokens of length greater than 3
outside `{"with","and","the","for"}`, so the same example yields
`["quick","brown","jumps"]` (dropping "fox", length 3). -/
theorem c4_keyword_extractor :
    extractKeywords "A cat and the quick brown fox jumps"
        = ["cat", "quick", "brown", "fox", "jumps"]
    ∧ gaffKeywords "A cat and the quick brown fox jumps"
        = ["quick", "brown", "jumps"]
    ∧ (∀ p, (extractKeywords p).Sublist (jsSplit (fun c => !isWordChar c) (jsToLower p)))
    ∧ (∀ p w, w ∈ extractKeywords p → 2 < w.length ∧ w ∉ commonWords) :=
  ⟨by decide, by decide, extractKeywords_sublist, fun _ _ h => extractKeywords_mem h⟩

/-- C4 witness: the amended theorem applied to the spec's example and the
token "cat". -/
theorem c4_witness :
    extractKeywords "A cat and the quick brown fox jumps"
        = ["cat", "quick", "brown", "fox", "jumps"]
    ∧ 2 < "cat".length ∧ "cat" ∉ commonWords :=
  ⟨c4_keyword_extractor.1,
   c4_keyword_extractor.2.2.2 "A cat and the quick brown fox jumps" "cat" (by decide)⟩

/-! ## C7: frame display slices -/

/-- C7: every frame's `-t` option is `ceil(duration / frameCount)`, so
the total playback duration is at least the requested duration and
exceeds it by at most `frameCount - 1` seconds. -/
theorem c7_slice_bounds :
    ∀ (frames : List String) (duration : ℕ), frames ≠ [] → 0 < duration →
      (∀ t ∈ frameInputDurations frames duration,
          t = frameSliceSeconds duration frames.length)
      ∧ duration ≤ (frameInputDurations frames duration).sum
      ∧ (frameInputDurations frames duration).sum ≤ duration + (frames.length - 1) := by
  intro frames duration hne hdur
  have hn : 0 < frames.length := List.length_pos.mpr hne
  have hsum : (frameInputDurations frames duration).sum
      = frames.length * frameSliceSeconds duration frames.length := by
    unfold frameInputDurations
    rw [show (fun (_ : String) => frameSliceSeconds duration frames.length)
          = Function.const String (frameSliceSeconds duration frames.length) from rfl,
        List.map_const, List.sum_replicate, smul_eq_mul]
  have hdm := Nat.div_add_mod (duration + frames.length - 1) frames.length
  have hmod : (duration + frames.length - 1) % frames.length < frames.length :=
    Nat.mod_lt _ hn
  refine ⟨?_, ?_, ?_⟩
  · intro t ht
    unfold frameInputDurations at ht
    simp only [List.mem_map] at ht
    obtain ⟨-, -, rfl⟩ := ht
    rfl
  · rw [hsum]
    unfold frameSliceSeconds
    generalize hm : frames.length * ((duration + frames.length - 1) / frames.length) = m at hdm ⊢
    omega
  · rw [hsum]
    unfold frameSliceSeconds
    generalize hm : frames.length * ((duration + frames.length - 1) / frames.length) = m at hdm ⊢
    omega

/-- C7 witness: three frames, ten seconds. -/
theorem c7_witness :
    (∀ t ∈ frameInputDurations ["f1", "f2", "f3"] 10,
        t = frameSliceSeconds 10 (["f1", "f2", "f3"] : List String).length)
    ∧ 10 ≤ (frameInputDurations ["f1", "f2", "f3"] 10).sum
    ∧ (frameInputDurations ["f1", "f2", "f3"] 10).sum
        ≤ 10 + ((["f1", "f2", "f3"] : List String).length - 1) :=
  c7_slice_bounds ["f1", "f2", "f3"] 10 (by decide) (by decide)

/-! ## C8: output file verification -/

/-- C8 (counterexample): the part_000 assembler's `end` handler resolves
without inspecting the output file, so a zero-byte output is reported as
success, contradicting the claim that a zero-byte output is treated as
failure even when the encoder emitted no error. -/
theorem c8_counterexample :
    createVideoEndP0 3 (some 0) = Except.ok (outputPathP0 3) := rfl

/-- C8 (amended): in `src/index.js` the assembler declares success after
encoder completion exactly when `fs.stat` reports a positive size
(missing or zero-byte output is a failure); in `src/unnamed/part_000`
the assembler resolves on encoder completion without verifying the
output file at all. -/
theorem c8_output_verification :
    (∀ now statSize,
        (createVideoEndIdx now statSize).isOk = true ↔ ∃ k, statSize = some (k + 1))
    ∧ (∀ now statSize, createVideoEndP0 now statSize = Except.ok (outputPathP0 now)) := by
  constructor
  · intro now st
    match st with
    | none => simp [createVideoEndIdx, Except.isOk, Except.toBool]
    | some 0 => simp [createVideoEndIdx, Except.isOk, Except.toBool]
    | some (k + 1) =>
      simp only [createVideoEndIdx, Nat.succ_pos, if_pos, Except.isOk, Except.toBool]
      simp
  · intro now st
    rfl

/-! ## C5: the audio fallback cascade order -/

/-- C5: in the three-tier cascade of `searchAndDownloadMusic`, a tier-1
hit on the raw prompt means no tier-2 or tier-3 query is ever issued
(the query log is exactly `[prompt]`), and when the cascade fails the
log is exactly the direct query, then every keyword query, then every
entry of `DEFAULT_CATEGORIES`, in order — so the stage is declared
failed only after all default categories were queried. -/
theorem c5_cascade_order :
    (∀ oracle prompt, oracle prompt = true →
        searchAndDownloadMusic oracle prompt = ([prompt], Except.ok prompt))
    ∧ (∀ oracle prompt log e,
        searchAndDownloadMusic oracle prompt = (log, Except.error e) →
        log = prompt :: (keywordQueries prompt ++ DEFAULT_CATEGORIES)) := by
  constructor
  · intro o p h
    unfold searchAndDownloadMusic
    rw [if_pos h]
  · intro o p log e h
    unfold searchAndDownloadMusic at h
    by_cases h1 : o p = true
    · rw [if_pos h1] at h
      simpa using congrArg Prod.snd h
    · rw [if_neg h1] at h
      rcases h2 : (firstHit o (keywordQueries p)).2 with - | q
      · rw [h2] at h
        rcases h3 : (firstHit o DEFAULT_CATEGORIES).2 with - | q3
        · rw [h3] at h
          have hlog := congrArg Prod.fst h
          simp only at hlog
          rw [← hlog, firstHit_none_fst o _ h2, firstHit_none_fst o _ h3]
        · rw [h3] at h
          simpa using congrArg Prod.snd h
      · rw [h2] at h
        simpa using congrArg Prod.snd h

/-- C5 witness: a direct hit issues only the direct query; a run with no
results anywhere logs the direct query, both keyword queries and all
five default categories, in order. -/
theorem c5_witness :
    searchAndDownloadMusic oDirectHit "calm lake at sunrise"
        = (["calm lake at sunrise"], Except.ok "calm lake at sunrise")
    ∧ (["jazz festival", "jazz music background", "festival music background",
        "ambient music", "background music", "soundtrack", "atmospheric music",
        "instrumental"] : List String)
        = "jazz festival" :: (keywordQueries "jazz festival" ++ DEFAULT_CATEGORIES) :=
  ⟨c5_cascade_order.1 oDirectHit "calm lake at sunrise" (by decide),
   c5_cascade_order.2 oNoAudio "jazz festival"
     ["jazz festival", "jazz music background", "festival music background",
      "ambient music", "background music", "soundtrack", "atmospheric music",
      "instrumental"]
     "No matching sounds found after all attempts" (by decide)⟩

/-! ## C6: audio exhaustion aborts the pipeline -/

/-- C6: when every audio query returns no results,
`searchAndDownloadMusic` throws its terminal error, and the
`src/index.js` route (whose audio stage `getAudioFromFreesound` returns
null) aborts with an error: assembly is never invoked, nothing is
persisted, and the response is an error. -/
theorem c6_exhaustion_aborts :
    (∀ oracle prompt, (∀ q, oracle q = false) →
        (searchAndDownloadMusic oracle prompt).2
          = Except.error "No matching sounds found after all attempts")
    ∧ (∀ fO aO enc st now prompt dur, (∀ q, aO q = false) →
        (routeIdx fO aO enc st now prompt dur).assembled = false
        ∧ (routeIdx fO aO enc st now prompt dur).saved = none
        ∧ (routeIdx fO aO enc st now prompt dur).response.isOk = false) := by
  constructor
  · intro o p h
    have h2 : (firstHit o (keywordQueries p)).2 = none :=
      (firstHit_none_iff o _).mpr (fun q _ => h q)
    have h3 : (firstHit o DEFAULT_CATEGORIES).2 = none :=
      (firstHit_none_iff o _).mpr (fun q _ => h q)
    unfold searchAndDownloadMusic
    rw [if_neg (by simp [h p]), h2, h3]
  · intro fO aO enc st now p dur h
    have hga := gaff_none h now p
    unfold routeIdx
    by_cases hv : jsTrim p = "" ∨ dur = JsNum.nan
    · rw [if_pos hv]
      exact ⟨rfl, rfl, rfl⟩
    · rw [if_neg hv]
      rcases hg : genFramesIdx fO (jsCeilHalf (jsNumVal dur)) with e | frames
      · exact ⟨rfl, rfl, rfl⟩
      · by_cases he : frames.isEmpty <;>
          simp [he, hga, Except.isOk, Except.toBool]

/-- C6 witness: the theorem at a concrete always-empty audio oracle. -/
theorem c6_witness :
    (searchAndDownloadMusic oNoAudio "calm lake").2
        = Except.error "No matching sounds found after all attempts"
    ∧ ((routeIdx oAllOkIdx oNoAudio (Except.ok ()) (some 5) 3 "a cat"
          (JsNum.fin 5)).assembled = false
       ∧ (routeIdx oAllOkIdx oNoAudio (Except.ok ()) (some 5) 3 "a cat"
            (JsNum.fin 5)).saved = none
       ∧ (routeIdx oAllOkIdx oNoAudio (Except.ok ()) (some 5) 3 "a cat"
            (JsNum.fin 5)).response.isOk = false) :=
  ⟨c6_exhaustion_aborts.1 oNoAudio "calm lake" (fun _ => rfl),
   c6_exhaustion_aborts.2 oAllOkIdx oNoAudio (Except.ok ()) (some 5) 3 "a cat"
     (JsNum.fin 5) (fun _ => rfl)⟩

/-! ## C9: every persisted record has hasAudio = true -/

/-- C9: both generation routes only ever persist a record whose
`hasAudio` field is the literal `true`. -/
theorem c9_hasAudio :
    (∀ fO aO enc st now prompt dur r,
        (routeIdx fO aO enc st now prompt dur).saved = some r → r.hasAudio = true)
    ∧ (∀ prev now fO music evts enc prompt dur r,
        (routeP0 prev now fO music evts enc prompt dur).saved = some r →
          r.hasAudio = true) := by
  constructor
  · intro fO aO enc st now p dur r h
    unfold routeIdx at h
    by_cases hv : jsTrim p = "" ∨ dur = JsNum.nan
    · rw [if_pos hv] at h
      exact absurd h (by simp)
    · rw [if_neg hv] at h
      rcases hg : genFramesIdx fO (jsCeilHalf (jsNumVal dur)) with e | frames <;>
        rw [hg] at h
      · exact absurd h (by simp)
      · by_cases he : frames.isEmpty <;> simp only [he, if_true, if_false] at h
        · exact absurd h (by simp)
        · rcases ha : getAudioFromFreesound aO now p with - | ap <;> rw [ha] at h
          · exact absurd h (by simp)
          · rcases hc : createVideoIdx now enc st with e | vp <;> rw [hc] at h
            · exact absurd h (by simp)
            · by_cases hz : st = some 0 <;>
                simp only [hz, if_true, if_false, if_pos, if_neg, not_false_iff] at h
              · exact absurd h (by simp)
              · obtain rfl : (⟨p, "/videos/" ++ vp, jsNumVal dur, true⟩ : VideoRecord) = r := by
                  simpa using h
                rfl
  · intro prev now fO music evts enc p dur r h
    unfold routeP0 at h
    by_cases hv : jsTrim p = "" ∨ dur = JsNum.nan
    · rw [if_pos hv] at h
      exact absurd h (by simp)
    · rw [if_neg hv] at h
      rcases hb : p0FirstBad fO (p0N dur) with - | im <;> rw [hb] at h
      · rcases hm : music with m | ap <;> rw [hm] at h
        · exact absurd h (by simp)
        · rcases hc : enc with m | u <;> rw [hc] at h
          · exact absurd h (by simp)
          · obtain rfl : (⟨p, "/videos/" ++ outputPathP0 now, jsNumVal dur, true⟩ :
                VideoRecord) = r := by simpa using h
            rfl
      · exact absurd h (by simp)

/-- C9 witness: a concrete successful run of the `src/index.js` route
persists a record, and the theorem yields `hasAudio = true` for it. -/
theorem c9_witness :
    VideoRecord.hasAudio ⟨"a cat", "/videos/3.mp4", 5, true⟩ = true :=
  c9_hasAudio.1 oAllOkIdx oAllAudio (Except.ok ()) (some 5) 3 "a cat"
    (JsNum.fin 5) ⟨"a cat", "/videos/3.mp4", 5, true⟩ (by decide)

/-! ## C10: validation accepts every non-NaN duration -/

/-- C10: both routes reject a request (never entering the frame stage)
exactly when the prompt is empty after trimming or the duration parsed
to NaN; in particular every integer duration — zero and negative values
included — passes validation and starts the pipeline. -/
theorem c10_validation :
    ∀ fO aO enc st now prompt dur prev fO2 music evts,
      ((routeIdx fO aO enc st now prompt dur).framesStage = false
        ↔ (jsTrim prompt = "" ∨ dur = JsNum.nan))
      ∧ ((routeP0 prev now fO2 music evts enc prompt dur).framesStage = false
        ↔ (jsTrim prompt = "" ∨ dur = JsNum.nan)) := by
  intro fO aO enc st now p dur prev fO2 music evts
  constructor
  · unfold routeIdx
    by_cases hv : jsTrim p = "" ∨ dur = JsNum.nan
    · rw [if_pos hv]
      simpa using hv
    · rw [if_neg hv]
      rcases hg : genFramesIdx fO (jsCeilHalf (jsNumVal dur)) with e | frames
      · simpa using hv
      · by_cases he : frames.isEmpty <;> simp only [he, if_true, if_false]
        · simpa using hv
        · rcases ha : getAudioFromFreesound aO now p with - | ap
          · simpa using hv
          · rcases hc : createVideoIdx now enc st with e | vp
            · simpa using hv
            · by_cases hz : st = some 0 <;> simp only [hz, if_true, if_false] <;>
                simpa using hv
  · unfold routeP0
    by_cases hv : jsTrim p = "" ∨ dur = JsNum.nan
    · rw [if_pos hv]
      simpa using hv
    · rw [if_neg hv]
      rcases hb : p0FirstBad fO2 (p0N dur) with - | im
      · rcases hm : music with m | ap
        · simpa using hv
        · rcases hc : enc with m | u <;> simpa using hv
      · simpa using hv

/-! ## Frame-stage characterization lemmas -/

lemma genFramesP0Aux_spec (oracle : ℕ → Option String) (now : ℕ) :
    ∀ (is : List ℕ) (acc : List String),
      genFramesP0Aux oracle now is acc =
        match is.findSome? (fun i => (oracle i).map (fun m => (i, m))) with
        | some im => Except.error (im.1, p0FrameErrMsg im.1 im.2)
        | none => Except.ok (acc ++ is.map (framePathP0 now)) := by
  intro is
  induction is with
  | nil => intro acc; simp [genFramesP0Aux]
  | cons i is ih =>
    intro acc
    rcases h : oracle i with - | m
    · simp only [genFramesP0Aux, h, List.findSome?_cons, Option.map_none']
      rw [ih]
      rcases is.findSome? (fun i => (oracle i).map (fun m => (i, m))) with - | im
      · simp
      · simp
    · simp [genFramesP0Aux, h, List.findSome?_cons]

lemma genFramesP0_spec (oracle : ℕ → Option String) (now n : ℕ) :
    genFramesP0 oracle now n =
      match p0FirstBad oracle n with
      | some im => Except.error (im.1, p0FrameErrMsg im.1 im.2)
      | none => Except.ok ((List.range' 1 n).map (framePathP0 now)) := by
  unfold genFramesP0 p0FirstBad
  rw [genFramesP0Aux_spec]
  rcases (List.range' 1 n).findSome? (fun i => (oracle i).map (fun m => (i, m)))
    with - | im
  · simp
  · simp

lemma genFramesIdxAux_spec (oracle : ℕ → FrameResp)
    (h : ∀ i, isSvcError (oracle i) = false) :
    ∀ (is : List ℕ) (acc : List String),
      genFramesIdxAux oracle is acc =
        (if (acc ++ (is.filter (fun i => isOkResp (oracle i))).map framePathIdx).isEmpty
         then Except.error "Failed to generate any frames"
         else Except.ok
           (acc ++ (is.filter (fun i => isOkResp (oracle i))).map framePathIdx)) := by
  intro is
  induction is with
  | nil => intro acc; simp [genFramesIdxAux]
  | cons i is ih =>
    intro acc
    rcases ho : oracle i with b | - | m
    · have ht : isOkResp (oracle i) = true := by rw [ho]; rfl
      simp only [genFramesIdxAux, ho, List.filter_cons, ht, if_true,
        List.map_cons]
      rw [ih]
      simp [isOkResp, List.append_assoc]
    · have hf : isOkResp (oracle i) = false := by rw [ho]; rfl
      simp only [genFramesIdxAux, ho, List.filter_cons, hf,
        Bool.false_eq_true, if_false]
      exact ih acc
    · have := h i
      rw [ho] at this
      simp [isSvcError] at this

lemma genFramesIdx_spec (oracle : ℕ → FrameResp) (numFrames : Int)
    (h : ∀ i, isSvcError (oracle i) = false) :
    genFramesIdx oracle numFrames =
      (if ((List.range (max 4 numFrames).toNat).filter
            (fun i => isOkResp (oracle i))).isEmpty
       then Except.error "Failed to generate any frames"
       else Except.ok
         (((List.range (max 4 numFrames).toNat).filter
            (fun i => isOkResp (oracle i))).map framePathIdx)) := by
  unfold genFramesIdx
  rw [genFramesIdxAux_spec oracle h]
  have hm : ∀ l : List ℕ, (l.map framePathIdx).isEmpty = l.isEmpty := by
    intro l
    cases l <;> rfl
  rw [List.nil_append, hm]

/-! ## C1: the frame stage is all-or-nothing -/

/-- C1 (counterexample): in `src/index.js`, requesting 5 frames against
an image service whose third response is malformed does not abort the
stage; it succeeds with 4 frames, so a single frame failure neither
aborts the stage nor keeps the count at the requested 5. -/
theorem c1_counterexample :
    genFramesIdx oMalformedAt2 5
        = Except.ok [framePathIdx 0, framePathIdx 1, framePathIdx 3, framePathIdx 4]
    ∧ Except.map List.length (genFramesIdx oMalformedAt2 5) = Except.ok 4
    ∧ (4 : ℕ) ≠ 5 := by
  decide

/-- C1 (amended): the part_000 frame generator is all-or-nothing — it
returns one frame per requested index or fails at the first failing
index with an error carrying that index. The `src/index.js` generator
instead runs `max(4, n)` iterations, aborts only on an image-service
transport error, silently skips malformed responses (continuing with
fewer frames than requested), and fails only when no frame at all was
produced. -/
theorem c1_all_or_nothing :
    (∀ oracle now n,
      genFramesP0 oracle now n =
        match p0FirstBad oracle n with
        | some im => Except.error (im.1, p0FrameErrMsg im.1 im.2)
        | none => Except.ok ((List.range' 1 n).map (framePathP0 now)))
    ∧ (∀ oracle numFrames, (∀ i, isSvcError (oracle i) = false) →
      genFramesIdx oracle numFrames =
        (if ((List.range (max 4 numFrames).toNat).filter
              (fun i => isOkResp (oracle i))).isEmpty
         then Except.error "Failed to generate any frames"
         else Except.ok
           (((List.range (max 4 numFrames).toNat).filter
              (fun i => isOkResp (oracle i))).map framePathIdx))) :=
  ⟨fun oracle now n => genFramesP0_spec oracle now n,
   fun oracle numFrames h => genFramesIdx_spec oracle numFrames h⟩

/-- C1 witness: the characterizations evaluated on all-success oracles. -/
theorem c1_witness :
    genFramesP0 oAllOkP0 7 3
        = Except.ok [framePathP0 7 1, framePathP0 7 2, framePathP0 7 3]
    ∧ genFramesIdx oAllOkIdx 2
        = Except.ok [framePathIdx 0, framePathIdx 1, framePathIdx 2, framePathIdx 3] :=
  ⟨(c1_all_or_nothing.1 oAllOkP0 7 3).trans (by decide),
   (c1_all_or_nothing.2 oAllOkIdx 2 (fun _ => rfl)).trans (by decide)⟩

/-! ## C2: frame count versus ceil(duration/2) -/

/-- C2 (counterexample): at duration 5 the `src/index.js` pipeline
generates 4 frames (because of the `Math.max(4, ...)` floor), not
`ceil(5/2) = 3` as the claim states. -/
theorem c2_counterexample :
    (routeIdx oAllOkIdx oAllAudio (Except.ok ()) (some 5) 3 "a cat"
        (JsNum.fin 5)).framesCount = some 4
    ∧ jsCeilHalf 5 = 3
    ∧ (4 : ℕ) ≠ 3 := by
  decide

/-- C2 (amended): for every duration in [5, 30] the requested frame
count is `ceil(duration/2) ≥ 1`; the part_000 pipeline generates exactly
that many frames when every image call succeeds, while the
`src/index.js` pipeline generates `max(4, ceil(duration/2))` frames. -/
theorem c2_frame_count :
    ∀ (d : Int) (now : ℕ), 5 ≤ d → d ≤ 30 →
      1 ≤ jsCeilHalf d
      ∧ Except.map List.length (genFramesP0 oAllOkP0 now (jsCeilHalf d).toNat)
          = Except.ok (jsCeilHalf d).toNat
      ∧ Except.map List.length (genFramesIdx oAllOkIdx (jsCeilHalf d))
          = Except.ok (max 4 (jsCeilHalf d)).toNat := by
  intro d now h5 h30
  refine ⟨by unfold jsCeilHalf; omega, ?_, ?_⟩
  · rw [genFramesP0_spec]
    have hb : p0FirstBad oAllOkP0 (jsCeilHalf d).toNat = none := by
      unfold p0FirstBad
      exact List.findSome?_eq_none_iff.mpr (fun x _ => rfl)
    rw [hb]
    simp [Except.map, List.length_map, List.length_range']
  · rw [genFramesIdx_spec oAllOkIdx _ (fun _ => rfl)]
    have hfil : (List.range (max 4 (jsCeilHalf d)).toNat).filter
        (fun i => isOkResp (oAllOkIdx i)) = List.range (max 4 (jsCeilHalf d)).toNat :=
      List.filter_eq_self.mpr (fun a _ => rfl)
    rw [hfil]
    have h4 : (4 : Int) ≤ max 4 (jsCeilHalf d) := le_max_left _ _
    have hne : (List.range (max 4 (jsCeilHalf d)).toNat).isEmpty = false := by
      rcases hr : List.range (max 4 (jsCeilHalf d)).toNat with - | ⟨a, l⟩
      · exfalso
        have := List.range_eq_nil.mp hr
        omega
      · rfl
    simp only [hne, Bool.false_eq_true, if_false]
    simp [Except.map, List.length_map, List.length_range]

/-- C2 witness: the amended theorem at duration 10. -/
theorem c2_witness :
    1 ≤ jsCeilHalf 10
    ∧ Except.map List.length (genFramesP0 oAllOkP0 0 (jsCeilHalf 10).toNat)
        = Except.ok (jsCeilHalf 10).toNat
    ∧ Except.map List.length (genFramesIdx oAllOkIdx (jsCeilHalf 10))
        = Except.ok (max 4 (jsCeilHalf 10)).toNat :=
  c2_frame_count 10 0 (by decide) (by decide)

/-! ## Progress-trace helper lemmas -/

lemma frameProg_nonneg (n i : ℕ) : 0 ≤ frameProg n i := Int.natCast_nonneg _

lemma frameProg_mono (n : ℕ) {i j : ℕ} (h : i ≤ j) :
    frameProg n i ≤ frameProg n j := by
  unfold frameProg
  exact_mod_cast Nat.div_le_div_right (by omega)

lemma frameProg_le_40 (n k : ℕ) (h : k ≤ n) : frameProg n k ≤ 40 := by
  unfold frameProg
  rcases n with - | m
  · interval_cases k
    simp
  · have h1 : (80 * k + (m + 1)) / (2 * (m + 1)) < 41 := by
      rw [Nat.div_lt_iff_lt_mul (by omega)]
      omega
    exact_mod_cast Nat.lt_succ_iff.mp h1

lemma encProg_ge_75 (p : ℕ) : 75 ≤ encProg p := by
  unfold encProg
  have := Int.natCast_nonneg ((2 * p + 5) / 10)
  omega

lemma encProg_mono {p q : ℕ} (h : p ≤ q) : encProg p ≤ encProg q := by
  unfold encProg
  have : (2 * p + 5) / 10 ≤ (2 * q + 5) / 10 := Nat.div_le_div_right (by omega)
  omega

lemma chain_range' {P : ℕ → ℕ → Prop} (h : ∀ i, P i (i + 1)) :
    ∀ s k, List.Chain' P (List.range' s k) := by
  intro s k
  induction k generalizing s with
  | zero => simp
  | succ k ih =>
    rw [List.range'_succ]
    rw [List.chain'_cons']
    refine ⟨?_, ih (s + 1)⟩
    intro y hy
    rcases k with - | k
    · simp at hy
    · rw [List.range'_succ] at hy
      simp only [List.head?_cons, Option.mem_def, Option.some.injEq] at hy
      rw [← hy]
      exact h s

lemma chain_framesStates (n k : ℕ) : List.Chain' stepOK (p0FramesStates n k) := by
  unfold p0FramesStates
  rw [List.chain'_map]
  apply chain_range'
  intro i
  exact Or.inl (Or.inl (frameProg_mono n (Nat.le_succ i)))

lemma framesStates_head (n k : ℕ) :
    (p0FramesStates n (k + 1)).head? = some (p0FrameState n 1) := by
  unfold p0FramesStates
  rw [List.range'_succ, List.map_cons]
  rfl

lemma range'_one_getLast (k : ℕ) :
    (List.range' 1 (k + 1)).getLast? = some (k + 1) := by
  rw [List.range'_concat, List.getLast?_concat]
  congr 1
  omega

lemma framesStates_last (n k : ℕ) :
    (p0FramesStates n (k + 1)).getLast? = some (p0FrameState n (k + 1)) := by
  unfold p0FramesStates
  rw [List.getLast?_map, range'_one_getLast]
  rfl

lemma preFrames_last_succ (n k : ℕ) :
    (p0PreFrames n (k + 1)).getLast? = some (p0FrameState n (k + 1)) := by
  unfold p0PreFrames
  rw [List.getLast?_append_of_ne_nil, framesStates_last]
  intro hnil
  rw [p0FramesStates, List.map_eq_nil_iff] at hnil
  simp [List.range'] at hnil

lemma preFrames_last_zero (n : ℕ) :
    (p0PreFrames n 0).getLast? = some p0GenFrames := rfl

lemma preFrames_last_le_45 (n k : ℕ) (hk : k ≤ n) :
    ∀ x ∈ (p0PreFrames n k).getLast?, x.progress ≤ 45 := by
  intro x hx
  rcases k with - | k
  · rw [preFrames_last_zero, Option.mem_def, Option.some.injEq] at hx
    rw [← hx]
    decide
  · rw [preFrames_last_succ, Option.mem_def, Option.some.injEq] at hx
    rw [← hx]
    exact le_trans (frameProg_le_40 n (k + 1) hk) (by decide)

lemma chain_preFrames (n k : ℕ) : List.Chain' stepOK (p0PreFrames n k) := by
  unfold p0PreFrames
  rw [List.chain'_append]
  refine ⟨?_, chain_framesStates n k, ?_⟩
  · rw [List.chain'_cons]
    exact ⟨Or.inl (Or.inl (le_refl 0)), List.chain'_singleton _⟩
  intro x hx y hy
  simp only [List.getLast?_cons_cons, List.getLast?_singleton, Option.mem_def,
    Option.some.injEq] at hx
  rcases k with - | k
  · simp [p0FramesStates] at hy
  · rw [framesStates_head, Option.mem_def, Option.some.injEq] at hy
    rw [← hx, ← hy]
    exact Or.inl (Or.inl (frameProg_nonneg n 1))

lemma chain_t1 (n : ℕ) : List.Chain' stepOK (p0T1 n) := by
  unfold p0T1
  rw [List.chain'_append]
  refine ⟨chain_preFrames n n, List.chain'_singleton _, ?_⟩
  intro x hx y hy
  simp only [List.head?_cons, Option.mem_def, Option.some.injEq] at hy
  rw [← hy]
  exact Or.inl (Or.inl (preFrames_last_le_45 n n le_rfl x hx))

lemma t1_last (n : ℕ) : (p0T1 n).getLast? = some p0Music := by
  unfold p0T1
  rw [List.getLast?_concat]

lemma chain_encStates {evts : List ℕ}
    (h : List.Chain' (fun a b : ℕ => a ≤ b) evts) :
    List.Chain' stepOK (evts.map p0EncState) := by
  rw [List.chain'_map]
  exact h.imp (fun a b hab => Or.inl (Or.inl (encProg_mono hab)))

lemma chain_t2 (n : ℕ) {evts : List ℕ}
    (h : List.Chain' (fun a b : ℕ => a ≤ b) evts) :
    List.Chain' stepOK (p0T2 n evts) := by
  unfold p0T2
  rw [List.chain'_append]
  refine ⟨?_, chain_encStates h, ?_⟩
  · rw [List.chain'_append]
    refine ⟨chain_t1 n, List.chain'_singleton _, ?_⟩
    intro x hx y hy
    rw [t1_last, Option.mem_def, Option.some.injEq] at hx
    simp only [List.head?_cons, Option.mem_def, Option.some.injEq] at hy
    rw [← hx, ← hy]
    exact Or.inl (Or.inl (by decide))
  · intro x hx y hy
    rw [List.getLast?_concat, Option.mem_def, Option.some.injEq] at hx
    rcases evts with - | ⟨p, ps⟩
    · simp at hy
    · simp only [List.map_cons, List.head?_cons, Option.mem_def,
        Option.some.injEq] at hy
      rw [← hx, ← hy]
      exact Or.inl (Or.inl (encProg_ge_75 p))

lemma stepOK_into_fail (a : PState) (m : String) : stepOK a (p0FailState m) :=
  Or.inl (Or.inr (Or.inl rfl))

lemma chain_append_fail {l : List PState} (hl : List.Chain' stepOK l)
    (m : String) : List.Chain' stepOK (l ++ [p0FailState m]) := by
  rw [List.chain'_append]
  refine ⟨hl, List.chain'_singleton _, ?_⟩
  intro x hx y hy
  simp only [List.head?_cons, Option.mem_def, Option.some.injEq] at hy
  rw [← hy]
  exact stepOK_into_fail x m

/-! ## C3: progress monotonicity and terminal states -/

/-- C3 (counterexample): in a successful part_000 run whose encoder
reported a progress event of 100 percent, the global percent reaches
95 during encoding and is then set to 90 at the Finalizing step — a
strict decrease while the run is not in a terminal state — so the
claimed monotonicity relation fails on this run's trace. -/
theorem c3_counterexample :
    ¬ List.Chain' claimStep
        (routeP0 prevIdle 7 oAllOkP0 (Except.ok "m.wav") [100] (Except.ok ())
          "a cat on a hill" (JsNum.fin 4)).trace := by
  intro h
  have ht : (routeP0 prevIdle 7 oAllOkP0 (Except.ok "m.wav") [100] (Except.ok ())
      "a cat on a hill" (JsNum.fin 4)).trace
      = [p0Start, p0GenFrames, p0FrameState 2 1, p0FrameState 2 2, p0Music,
         p0Assembling, p0EncState 100, p0Finalizing,
         p0Done ("/videos/" ++ outputPathP0 7)] := by decide
  rw [ht, List.chain'_iff_get] at h
  have hbad := h 6 (by decide)
  exact absurd hbad (by decide)

/-- C3 (amended): for every validated request (non-empty trimmed prompt,
non-NaN duration) against a part_000 server whose encoder reports a
non-decreasing sequence of progress events, the percent in the progress
trace never decreases except on entering a terminal state or on the
single drop to 90 at the Finalizing step (the encoder range reaches up
to 95 before Finalizing resets the percent to 90); and the run's last
progress state is exactly one of the two terminal shapes: percent 100
with videoUrl set and no error, or percent -1 with no videoUrl and an
error message. -/
theorem c3_progress_trace :
    ∀ prev now fO music evts enc prompt x,
      jsTrim prompt ≠ "" →
      List.Chain' (fun a b : ℕ => a ≤ b) evts →
      List.Chain' stepOK
        (routeP0 prev now fO music evts enc prompt (JsNum.fin x)).trace
      ∧ (∃ s,
          (routeP0 prev now fO music evts enc prompt (JsNum.fin x)).trace.getLast?
            = some s
          ∧ ((s.progress = 100 ∧ (∃ u, s.videoUrl = some u) ∧ s.error = none)
             ∨ (s.progress = -1 ∧ s.videoUrl = none ∧ ∃ m, s.error = some m))) := by
  intro prev now fO music evts enc prompt x hp hevts
  have hv : ¬ (jsTrim prompt = "" ∨ JsNum.fin x = JsNum.nan) := by
    rintro (h | h)
    · exact hp h
    · exact JsNum.noConfusion h
  unfold routeP0
  rw [if_neg hv]
  rcases hb : p0FirstBad fO (p0N (JsNum.fin x)) with - | im
  · rcases music with m | ap
    · refine ⟨chain_append_fail (chain_t1 _) m, p0FailState m, ?_, ?_⟩
      · rw [List.getLast?_concat]
      · exact Or.inr ⟨rfl, rfl, m, rfl⟩
    · rcases enc with m | u
      · refine ⟨chain_append_fail (chain_t2 _ hevts) _,
          p0FailState ("Failed to create video: " ++ m), ?_, ?_⟩
        · rw [List.getLast?_concat]
        · exact Or.inr ⟨rfl, rfl, _, rfl⟩
      · have hsplit : p0T2 (p0N (JsNum.fin x)) evts
            ++ [p0Finalizing, p0Done ("/videos/" ++ outputPathP0 now)]
            = (p0T2 (p0N (JsNum.fin x)) evts ++ [p0Finalizing])
              ++ [p0Done ("/videos/" ++ outputPathP0 now)] := by
          simp
        constructor
        · rw [hsplit, List.chain'_append]
          refine ⟨?_, List.chain'_singleton _, ?_⟩
          · rw [List.chain'_append]
            refine ⟨chain_t2 _ hevts, List.chain'_singleton _, ?_⟩
            intro a ha y hy
            simp only [List.head?_cons, Option.mem_def, Option.some.injEq] at hy
            rw [← hy]
            exact Or.inr rfl
          · intro a ha y hy
            rw [List.getLast?_concat, Option.mem_def, Option.some.injEq] at ha
            simp only [List.head?_cons, Option.mem_def, Option.some.injEq] at hy
            rw [← ha, ← hy]
            exact Or.inl (Or.inl (show (90 : Int) ≤ 100 by norm_num))
        · refine ⟨p0Done ("/videos/" ++ outputPathP0 now), ?_, ?_⟩
          · rw [hsplit, List.getLast?_concat]
          · exact Or.inl ⟨rfl, ⟨_, rfl⟩, rfl⟩
  · have hsplit : p0PreFrames (p0N (JsNum.fin x)) (im.1 - 1)
        ++ [p0MidState (p0N (JsNum.fin x)) im,
            p0FailState (p0FrameErrMsg im.1 im.2)]
        = (p0PreFrames (p0N (JsNum.fin x)) (im.1 - 1)
            ++ [p0MidState (p0N (JsNum.fin x)) im])
          ++ [p0FailState (p0FrameErrMsg im.1 im.2)] := by
      simp
    have hchain : List.Chain' stepOK
        (p0PreFrames (p0N (JsNum.fin x)) (im.1 - 1)
          ++ [p0MidState (p0N (JsNum.fin x)) im,
              p0FailState (p0FrameErrMsg im.1 im.2)]) := by
      rw [hsplit]
      apply chain_append_fail
      rw [List.chain'_append]
      refine ⟨chain_preFrames _ _, List.chain'_singleton _, ?_⟩
      intro a ha y hy
      simp only [List.head?_cons, Option.mem_def, Option.some.injEq] at hy
      have hmid : (p0MidState (p0N (JsNum.fin x)) im).progress = a.progress := by
        unfold p0MidState
        rw [List.getLastD_eq_getLast?, Option.mem_def.mp ha]
        rfl
      rw [← hy]
      exact Or.inl (Or.inl (le_of_eq hmid.symm))
    have hlast : (p0PreFrames (p0N (JsNum.fin x)) (im.1 - 1)
        ++ [p0MidState (p0N (JsNum.fin x)) im,
            p0FailState (p0FrameErrMsg im.1 im.2)]).getLast?
        = some (p0FailState (p0FrameErrMsg im.1 im.2)) := by
      rw [hsplit, List.getLast?_concat]
    exact ⟨hchain,
      p0FailState (p0FrameErrMsg im.1 im.2), hlast, Or.inr ⟨rfl, rfl, _, rfl⟩⟩

/-- C3 witness: the amended theorem on a concrete successful run with
encoder events 50 then 100. -/
theorem c3_witness :
    List.Chain' stepOK
      (routeP0 prevIdle 7 oAllOkP0 (Except.ok "m.wav") [50, 100] (Except.ok ())
        "a cat" (JsNum.fin 10)).trace
    ∧ (∃ s,
        (routeP0 prevIdle 7 oAllOkP0 (Except.ok "m.wav") [50, 100] (Except.ok ())
          "a cat" (JsNum.fin 10)).trace.getLast? = some s
        ∧ ((s.progress = 100 ∧ (∃ u, s.videoUrl = some u) ∧ s.error = none)
           ∨ (s.progress = -1 ∧ s.videoUrl = none ∧ ∃ m, s.error = some m))) :=
  c3_progress_trace prevIdle 7 oAllOkP0 (Except.ok "m.wav") [50, 100]
    (Except.ok ()) "a cat" 10 (by decide)
    (by rw [List.chain'_cons]
        exact ⟨by norm_num, List.chain'_singleton _⟩)

end AiMusic
